import Mathlib

/-!
Shallow embedding of the energy-dashboard power-spike detection and alerting
pipeline (Express/MongoDB backend, energy controller: `addEnergyReading`,
`getEnergyReadings`, `checkForPowerSpike`).

Modelling choices:
* JS numbers are modelled as exact rationals (ℚ).
* The MongoDB reading collection is modelled as a list of readings kept in
  timestamp-descending order (newest first): `EnergyReading.create` prepends,
  and `find({deviceId}).sort({timestamp:-1})` is list filtering.
  `.limit(n)` is `List.take n`; `.skip(n)` is `List.drop n` applied before the
  limit, matching MongoDB semantics (skip is applied before limit regardless
  of the query-builder call order).
* Fallible storage / delivery calls are modelled by a `Faults` record of
  flags; a raised exception corresponds to the flag being `true`, and the
  JS `try`/`catch` structure determines which partial state survives.
* `sendEnergyAlert` is modelled by appending a notification record on
  successful delivery.
-/

namespace EnergyDashboard

/-- One energy sample (`EnergyReading` document): power is derived as
current × voltage at ingestion time. -/
structure Reading where
  deviceId : String
  current : ℚ
  voltage : ℚ
  temperature : ℚ
  power : ℚ
  userId : Nat
deriving DecidableEq, Repr

/-- The `metadata` sub-document stored on a spike alert. -/
structure AlertMetadata where
  currentPower : ℚ
  averagePower : ℚ
  threshold : ℚ
deriving DecidableEq, Repr

/-- An `Alert` document as created by `checkForPowerSpike`. -/
structure Alert where
  userId : Nat
  deviceId : String
  message : String
  alertType : String
  severity : String
  metadata : AlertMetadata
deriving DecidableEq, Repr

/-- Contact information found on a `User` document; `none` models a missing
field and the empty string models a present-but-falsy field. -/
structure User where
  email : Option String
  fcmToken : Option String
deriving DecidableEq, Repr

/-- A record of a successfully delivered `sendEnergyAlert` call. -/
structure Notification where
  email : Option String
  fcmToken : Option String
  deviceName : String
  alertType : String
  message : String
  currentPower : ℚ
  averagePower : ℚ
  threshold : ℚ
deriving DecidableEq, Repr

/-- The persistent state visible to the pipeline: reading store (newest
first), alert store, device registry (deviceId ↦ userId), user store and the
log of delivered notifications. -/
structure DB where
  readings : List Reading
  alerts : List Alert
  devices : List (String × Nat)
  users : List (Nat × User)
  notifications : List Notification
deriving DecidableEq, Repr

/-- Fault injection flags for the fallible storage / delivery calls: a flag
set to `true` means that call throws in this cycle. -/
structure Faults where
  deviceFindFails : Bool
  readingCreateFails : Bool
  historyFindFails : Bool
  alertCreateFails : Bool
  userFindFails : Bool
  notifyFails : Bool
deriving DecidableEq, Repr

/-- The fault-free execution environment. -/
def noFaults : Faults :=
  { deviceFindFails := false, readingCreateFails := false,
    historyFindFails := false, alertCreateFails := false,
    userFindFails := false, notifyFails := false }

/-- `Device.findOne({deviceId})`, projected to the owning user id. -/
def findDevice (db : DB) (deviceId : String) : Option Nat :=
  (db.devices.find? (fun p => p.1 == deviceId)).map (fun p => p.2)

/-- `User.findById(userId)`. -/
def findUserById (db : DB) (userId : Nat) : Option User :=
  (db.users.find? (fun p => p.1 == userId)).map (fun p => p.2)

/-- `EnergyReading.find({deviceId}).sort({timestamp:-1})`: all readings of a
device, newest first. -/
def deviceReadings (db : DB) (deviceId : String) : List Reading :=
  db.readings.filter (fun r => r.deviceId == deviceId)

/-- The window fetched by `checkForPowerSpike`:
`EnergyReading.find({deviceId}).sort({timestamp:-1}).limit(10)`. -/
def fetchWindow (db : DB) (deviceId : String) : List Reading :=
  (deviceReadings db deviceId).take 10

/-- `recentReadings.reduce((sum, r) => sum + r.power, 0) / recentReadings.length`. -/
def averagePower (recent : List Reading) : ℚ :=
  ((recent.map (fun r => r.power)).sum) / (recent.length : ℚ)

/-- `threshold = averagePower * 1.5` over a fetched window. -/
def spikeThreshold (recent : List Reading) : ℚ :=
  averagePower recent * 1.5

/-- The spike/no-spike classification made by `checkForPowerSpike` from a
fetched window and the power of the just-ingested reading:
`recentReadings.length >= 5 && currentPower > threshold`. -/
def spikeDecision (recent : List Reading) (currentPower : ℚ) : Bool :=
  decide (5 ≤ recent.length) && decide (spikeThreshold recent < currentPower)

/-- JS truthiness of an optional string field (`undefined` and `""` are
falsy). -/
def truthy (o : Option String) : Bool :=
  !((o.getD "") == "")

/-- `Number.prototype.toFixed(2)`: the integer `n` with `n / 100` closest to
the value (larger `n` on ties), rendered with exactly two digits after the
decimal point. -/
def toFixed2 (q : ℚ) : String :=
  let n : Int := Int.floor (q * 100 + 1 / 2)
  let m : Nat := n.natAbs
  (if n < 0 then "-" else "") ++ toString (m / 100) ++ "." ++
    toString (m / 10 % 10) ++ toString (m % 10)

/-- The alert message template:
`Power spike detected! Current power: ${currentPower.toFixed(2)}W is 50% above average: ${averagePower.toFixed(2)}W`. -/
def spikeMessage (cp ap : ℚ) : String :=
  "Power spike detected! Current power: " ++ toFixed2 cp ++
    "W is 50% above average: " ++ toFixed2 ap ++ "W"

/-- The `Alert.create` payload of `checkForPowerSpike` for a fetched window
`recent` and triggering power `currentPower`. -/
def spikeAlert (deviceId : String) (currentPower : ℚ) (userId : Nat)
    (recent : List Reading) : Alert :=
  { userId := userId
    deviceId := deviceId
    message := spikeMessage currentPower (averagePower recent)
    alertType := "power_spike"
    severity := "high"
    metadata :=
      { currentPower := currentPower
        averagePower := averagePower recent
        threshold := averagePower recent * 1.5 } }

/-- The `sendEnergyAlert` payload assembled by `checkForPowerSpike`. -/
def spikeNotification (user : User) (deviceId : String) (message : String)
    (currentPower ap threshold : ℚ) : Notification :=
  { email := user.email
    fcmToken := user.fcmToken
    deviceName := deviceId
    alertType := "Power Spike"
    message := message
    currentPower := currentPower
    averagePower := ap
    threshold := threshold }

/-- `checkForPowerSpike(deviceId, currentPower, userId)`: fetches the last
10 readings (the just-inserted one included, since it is the newest), and if
at least 5 were returned and `currentPower` exceeds 1.5 × their mean, creates
an alert and best-effort notifies the owner. The whole body is wrapped in
`try`/`catch`, and the `sendEnergyAlert` call in an inner `try`/`catch`, so a
fault leaves exactly the state built before the throwing call. -/
def checkForPowerSpike (f : Faults) (deviceId : String) (currentPower : ℚ)
    (userId : Nat) (db : DB) : DB :=
  if f.historyFindFails then db
  else
    let recentReadings := fetchWindow db deviceId
    if 5 ≤ recentReadings.length then
      let avg := averagePower recentReadings
      let threshold := avg * 1.5
      if threshold < currentPower then
        if f.alertCreateFails then db
        else
          let alert := spikeAlert deviceId currentPower userId recentReadings
          let db1 : DB := { db with alerts := alert :: db.alerts }
          if f.userFindFails then db1
          else
            match findUserById db userId with
            | none => db1
            | some user =>
              if truthy user.email || truthy user.fcmToken then
                if f.notifyFails then db1
                else
                  let notif := spikeNotification user deviceId alert.message
                    currentPower avg threshold
                  { db1 with notifications := notif :: db1.notifications }
              else db1
      else db
    else db

/-- The ingestion request body `{deviceId, current, voltage, temperature}`;
`validationErrors` models a non-empty `validationResult` (the validator
chain itself lives in the route definitions, outside this controller). -/
structure IngestRequest where
  deviceId : String
  current : ℚ
  voltage : ℚ
  temperature : ℚ
  validationErrors : Bool
deriving DecidableEq, Repr

/-- HTTP outcome of `addEnergyReading`. -/
inductive IngestResponse where
  | badRequest400
  | notFound404
  | created201 (energyReading : Reading)
  | serverError500
deriving DecidableEq, Repr

/-- The `EnergyReading.create` payload of `addEnergyReading`. -/
def mkEnergyReading (req : IngestRequest) (uid : Nat) : Reading :=
  { deviceId := req.deviceId
    current := req.current
    voltage := req.voltage
    temperature := req.temperature
    power := req.current * req.voltage
    userId := uid }

/-- `addEnergyReading`: validation, device lookup (404 when absent), power
computation, reading insertion, then `checkForPowerSpike`; the outer
`try`/`catch` turns a throwing device lookup or reading insert into a 500. -/
def addEnergyReading (f : Faults) (req : IngestRequest) (db : DB) :
    IngestResponse × DB :=
  if req.validationErrors then (.badRequest400, db)
  else if f.deviceFindFails then (.serverError500, db)
  else
    match findDevice db req.deviceId with
    | none => (.notFound404, db)
    | some uid =>
      if f.readingCreateFails then (.serverError500, db)
      else
        let energyReading := mkEnergyReading req uid
        let db1 : DB := { db with readings := energyReading :: db.readings }
        let db2 := checkForPowerSpike f req.deviceId energyReading.power uid db1
        (.created201 energyReading, db2)

/-- Response of `getEnergyReadings`. -/
structure ReadingsResponse where
  count : Nat
  total : Nat
  readings : List Reading
deriving DecidableEq, Repr

/-- `getEnergyReadings`: paginated newest-first listing with
`limit` defaulting to 100, `page` defaulting to 1 and
`skip = (page - 1) * limit`. -/
def getEnergyReadings (deviceId : String) (limitParam pageParam : Option Nat)
    (db : DB) : ReadingsResponse :=
  let lim := limitParam.getD 100
  let page := pageParam.getD 1
  let skip := (page - 1) * lim
  let rs := ((deviceReadings db deviceId).drop skip).take lim
  { count := rs.length
    total := (deviceReadings db deviceId).length
    readings := rs }

/-! ## Characterization lemmas -/

theorem spikeDecision_iff (recent : List Reading) (c : ℚ) :
    spikeDecision recent c = true ↔ 5 ≤ recent.length ∧ spikeThreshold recent < c := by
  simp [spikeDecision]

/-- The alert store after one detection cycle: exactly one alert is prepended
when the history fetch and the alert insert succeed and the window classifies
`currentPower` as a spike; otherwise the alert store is unchanged. -/
theorem checkForPowerSpike_alerts (f : Faults) (d : String) (c : ℚ) (u : Nat)
    (db : DB) :
    (checkForPowerSpike f d c u db).alerts =
      if f.historyFindFails = false ∧ f.alertCreateFails = false ∧
          spikeDecision (fetchWindow db d) c = true
      then spikeAlert d c u (fetchWindow db d) :: db.alerts
      else db.alerts := by
  unfold checkForPowerSpike
  by_cases h1 : f.historyFindFails <;> simp only [h1, if_true, if_false]
  · simp
  · by_cases h2 : 5 ≤ (fetchWindow db d).length <;>
      simp only [h2, if_true, if_false]
    · by_cases h3 : spikeThreshold (fetchWindow db d) < c <;>
        simp only [spikeThreshold, averagePower] at h3 ⊢ <;>
        simp only [h3, if_true, if_false]
      · by_cases h4 : f.alertCreateFails <;> simp only [h4, if_true, if_false]
        · simp [spikeDecision_iff, h4]
        · by_cases h5 : f.userFindFails <;> simp only [h5, if_true, if_false]
          · simp [spikeDecision_iff, h2, h3, spikeThreshold, averagePower, spikeAlert]
          · cases hu : findUserById db u with
            | none =>
              simp [spikeDecision_iff, h2, h3, spikeThreshold, averagePower, spikeAlert]
            | some user =>
              by_cases h6 : truthy user.email || truthy user.fcmToken <;>
                by_cases h7 : f.notifyFails <;>
                simp [h6, h7, spikeDecision_iff, h2, h3, spikeThreshold,
                  averagePower, spikeAlert]
      · simp [spikeDecision_iff, spikeThreshold, averagePower, h3]
    · simp [spikeDecision_iff, h2]

/-- The notification log and the two fault flags that only matter after the
alert insert never change the alert store or the readings. -/
theorem checkForPowerSpike_readings (f : Faults) (d : String) (c : ℚ) (u : Nat)
    (db : DB) :
    (checkForPowerSpike f d c u db).readings = db.readings := by
  unfold checkForPowerSpike
  dsimp only
  repeat' split
  all_goals rfl

/-- Successful ingestion unfolds to the created reading plus one detection
cycle over the store holding the new reading. -/
theorem addEnergyReading_created (f : Faults) (req : IngestRequest) (db : DB)
    (uid : Nat) (hv : req.validationErrors = false)
    (hdf : f.deviceFindFails = false)
    (hd : findDevice db req.deviceId = some uid)
    (hr : f.readingCreateFails = false) :
    addEnergyReading f req db =
      (.created201 (mkEnergyReading req uid),
        checkForPowerSpike f req.deviceId (mkEnergyReading req uid).power uid
          { db with readings := mkEnergyReading req uid :: db.readings }) := by
  simp [addEnergyReading, hv, hdf, hd, hr, mkEnergyReading]

/-- Inserting a reading for the queried device prepends it to the fetched
window (it is the newest), which then keeps at most 9 of the prior readings. -/
theorem fetchWindow_insert (db : DB) (r : Reading) (d : String)
    (h : r.deviceId = d) :
    fetchWindow { db with readings := r :: db.readings } d =
      r :: (deviceReadings db d).take 9 := by
  simp [fetchWindow, deviceReadings, List.filter_cons, h]

/-- A detection cycle whose history fetch throws, or whose alert insert
throws, leaves the whole store untouched: the surrounding `try`/`catch` logs
and abandons the cycle. -/
theorem checkForPowerSpike_abandoned (f : Faults) (d : String) (c : ℚ)
    (u : Nat) (db : DB)
    (h : f.historyFindFails = true ∨ f.alertCreateFails = true) :
    checkForPowerSpike f d c u db = db := by
  rcases h with h | h
  · simp [checkForPowerSpike, h]
  · simp [checkForPowerSpike, h]

/-! ## Concrete fixtures -/

/-- A stored reading of power 100 (10 A × 10 V) for device `dev1`. -/
def r100 : Reading :=
  { deviceId := "dev1", current := 10, voltage := 10, temperature := 25,
    power := 100, userId := 7 }

/-- A stored reading of power 0 for device `dev1`. -/
def r0 : Reading :=
  { deviceId := "dev1", current := 0, voltage := 10, temperature := 25,
    power := 0, userId := 7 }

/-- Store with five prior readings of power 100 for `dev1`. -/
def db5x100 : DB :=
  { readings := [r100, r100, r100, r100, r100], alerts := [],
    devices := [("dev1", 7)], users := [], notifications := [] }

/-- Store with four prior readings of power 100 for `dev1`. -/
def db4x100 : DB :=
  { readings := [r100, r100, r100, r100], alerts := [],
    devices := [("dev1", 7)], users := [], notifications := [] }

/-- Store with five prior readings of power 0 for `dev1`. -/
def db5x0 : DB :=
  { readings := [r0, r0, r0, r0, r0], alerts := [],
    devices := [("dev1", 7)], users := [], notifications := [] }

/-- Store with no readings for `dev1`. -/
def dbEmpty : DB :=
  { readings := [], alerts := [], devices := [("dev1", 7)], users := [],
    notifications := [] }

/-- Ingestion of a reading of power 200 (200 A × 1 V) for `dev1`. -/
def req200 : IngestRequest :=
  { deviceId := "dev1", current := 200, voltage := 1, temperature := 25,
    validationErrors := false }

/-- Ingestion of a reading of power 500 for `dev1`. -/
def req500 : IngestRequest :=
  { deviceId := "dev1", current := 500, voltage := 1, temperature := 25,
    validationErrors := false }

/-- Ingestion of a reading of power 0.01 for `dev1`. -/
def reqSmall : IngestRequest :=
  { deviceId := "dev1", current := 1 / 100, voltage := 1, temperature := 25,
    validationErrors := false }

/-! ## Claims -/

/-- C1, counterexample: after five stored readings of power 100 each,
ingesting a reading of power 200 creates an alert whose
`metadata.threshold` is 175 and whose `metadata.averagePower` is 350/3
(≈116.67) — not the claimed 150 and 100 — because the window fetched by
`checkForPowerSpike` already contains the just-inserted reading
([200,100,100,100,100,100], mean 700/6). -/
theorem C1_counterexample_threshold_175 :
    ((addEnergyReading noFaults req200 db5x100).2.alerts.map
        (fun a => (a.metadata.averagePower, a.metadata.threshold))) =
      [(350 / 3, 175)] ∧ ¬ ((175 : ℚ) = 150 ∧ (350 / 3 : ℚ) = 100) := by
  have h1 : (addEnergyReading noFaults req200 db5x100).2 =
      checkForPowerSpike noFaults req200.deviceId
        (mkEnergyReading req200 7).power 7
        { db5x100 with readings := mkEnergyReading req200 7 :: db5x100.readings } :=
    congrArg Prod.snd
      (addEnergyReading_created noFaults req200 db5x100 7 rfl rfl rfl rfl)
  constructor
  · rw [h1, checkForPowerSpike_alerts,
      fetchWindow_insert db5x100 (mkEnergyReading req200 7) req200.deviceId rfl,
      if_pos ⟨rfl, rfl, (spikeDecision_iff _ _).2 ⟨by decide, by
        norm_num [spikeThreshold, averagePower, deviceReadings, db5x100, r100,
          req200, mkEnergyReading, List.filter, List.take]⟩⟩]
    norm_num [spikeAlert, averagePower, deviceReadings, db5x100, r100, req200,
      mkEnergyReading, List.filter, List.take]
  · norm_num

/-- C1, amended: the averaging window of `checkForPowerSpike` is the up to 10
most recent readings INCLUDING the newly inserted one. For every fault-free
ingestion for a registered device, if that window (new reading consed onto up
to 9 prior readings) has length ≥ 5 and the new power exceeds 1.5 × its mean,
an alert is created whose `metadata.averagePower` is that mean and whose
`metadata.threshold` is that mean × 1.5. -/
theorem C1_spike_alert_amended (req : IngestRequest) (db : DB) (uid : Nat)
    (hv : req.validationErrors = false)
    (hd : findDevice db req.deviceId = some uid)
    (hw : 5 ≤ (mkEnergyReading req uid ::
        (deviceReadings db req.deviceId).take 9).length)
    (hs : spikeThreshold (mkEnergyReading req uid ::
        (deviceReadings db req.deviceId).take 9) <
      (mkEnergyReading req uid).power) :
    (addEnergyReading noFaults req db).2.alerts =
      spikeAlert req.deviceId (mkEnergyReading req uid).power uid
        (mkEnergyReading req uid :: (deviceReadings db req.deviceId).take 9) ::
        db.alerts := by
  have h1 : (addEnergyReading noFaults req db).2 =
      checkForPowerSpike noFaults req.deviceId
        (mkEnergyReading req uid).power uid
        { db with readings := mkEnergyReading req uid :: db.readings } :=
    congrArg Prod.snd (addEnergyReading_created noFaults req db uid hv rfl hd rfl)
  rw [h1, checkForPowerSpike_alerts,
    fetchWindow_insert db (mkEnergyReading req uid) req.deviceId rfl,
    if_pos ⟨rfl, rfl, (spikeDecision_iff _ _).2 ⟨hw, hs⟩⟩]

/-- C1, amended, witness: five stored readings of power 100 then power 200 —
the created alert is the spike alert over the six-element window containing
the new reading. -/
theorem C1_spike_alert_amended_witness :
    (addEnergyReading noFaults req200 db5x100).2.alerts =
      spikeAlert req200.deviceId (mkEnergyReading req200 7).power 7
        (mkEnergyReading req200 7 ::
          (deviceReadings db5x100 req200.deviceId).take 9) ::
        db5x100.alerts :=
  C1_spike_alert_amended req200 db5x100 7 rfl rfl (by decide) (by
    norm_num [spikeThreshold, averagePower, deviceReadings, db5x100, r100,
      req200, mkEnergyReading, List.filter, List.take])

/-- C2, counterexample: with only FOUR prior readings (of power 100 each),
ingesting a reading of power 500 DOES create an alert, contrary to the claim:
the fetched window is [500,100,100,100,100], already 5 readings long, with
mean 180 and threshold 270 < 500. -/
theorem C2_counterexample_four_priors :
    (addEnergyReading noFaults req500 db4x100).2.alerts.length = 1 ∧
      db4x100.alerts.length = 0 := by
  have h1 : (addEnergyReading noFaults req500 db4x100).2 =
      checkForPowerSpike noFaults req500.deviceId
        (mkEnergyReading req500 7).power 7
        { db4x100 with readings := mkEnergyReading req500 7 :: db4x100.readings } :=
    congrArg Prod.snd
      (addEnergyReading_created noFaults req500 db4x100 7 rfl rfl rfl rfl)
  constructor
  · rw [h1, checkForPowerSpike_alerts,
      fetchWindow_insert db4x100 (mkEnergyReading req500 7) req500.deviceId rfl,
      if_pos ⟨rfl, rfl, (spikeDecision_iff _ _).2 ⟨by decide, by
        norm_num [spikeThreshold, averagePower, deviceReadings, db4x100, r100,
          req500, mkEnergyReading, List.filter, List.take]⟩⟩]
    rfl
  · rfl

/-- C2, amended: no alert is created when fewer than FOUR prior readings
exist for the device (the fetched window, which includes the new reading,
then has fewer than 5 entries), regardless of the new reading's power and of
any injected faults. -/
theorem C2_no_alert_amended (f : Faults) (req : IngestRequest) (db : DB)
    (h : (deviceReadings db req.deviceId).length < 4) :
    (addEnergyReading f req db).2.alerts = db.alerts := by
  by_cases hv : req.validationErrors
  · simp [addEnergyReading, hv]
  · by_cases hdf : f.deviceFindFails
    · simp [addEnergyReading, hv, hdf]
    · cases hd : findDevice db req.deviceId with
      | none => simp [addEnergyReading, hv, hdf, hd]
      | some uid =>
        by_cases hr : f.readingCreateFails
        · simp [addEnergyReading, hv, hdf, hd, hr]
        · have h1 : (addEnergyReading f req db).2 =
              checkForPowerSpike f req.deviceId
                (mkEnergyReading req uid).power uid
                { db with readings := mkEnergyReading req uid :: db.readings } :=
            congrArg Prod.snd (addEnergyReading_created f req db uid
              (by simpa using hv) (by simpa using hdf) hd (by simpa using hr))
          rw [h1, checkForPowerSpike_alerts,
            fetchWindow_insert db (mkEnergyReading req uid) req.deviceId rfl]
          rw [if_neg]
          · rintro ⟨-, -, hdec⟩
            rcases (spikeDecision_iff _ _).1 hdec with ⟨hlen, -⟩
            simp only [List.length_cons, List.length_take] at hlen
            omega

/-- C2, amended, witness: with an empty history, ingesting a reading of
power 500 creates no alert. -/
theorem C2_no_alert_amended_witness :
    (addEnergyReading noFaults req500 dbEmpty).2.alerts = dbEmpty.alerts :=
  C2_no_alert_amended noFaults req500 dbEmpty (by decide)

/-- C3: for every request, store and fault pattern, whenever the ingestion
pipeline creates an alert, its `metadata.currentPower` equals the triggering
reading's power, that power equals the ingested current × voltage, and its
`metadata.threshold` equals `metadata.averagePower` × 1.5. -/
theorem C3_alert_metadata_invariant (f : Faults) (req : IngestRequest)
    (db : DB) :
    (addEnergyReading f req db).2.alerts = db.alerts ∨
    ∃ a uid, (addEnergyReading f req db).2.alerts = a :: db.alerts ∧
      (addEnergyReading f req db).1 =
        IngestResponse.created201 (mkEnergyReading req uid) ∧
      a.metadata.currentPower = (mkEnergyReading req uid).power ∧
      (mkEnergyReading req uid).power = req.current * req.voltage ∧
      a.metadata.threshold = a.metadata.averagePower * 1.5 := by
  by_cases hv : req.validationErrors
  · left; simp [addEnergyReading, hv]
  · by_cases hdf : f.deviceFindFails
    · left; simp [addEnergyReading, hv, hdf]
    · cases hd : findDevice db req.deviceId with
      | none => left; simp [addEnergyReading, hv, hdf, hd]
      | some uid =>
        by_cases hr : f.readingCreateFails
        · left; simp [addEnergyReading, hv, hdf, hd, hr]
        · have hcreated := addEnergyReading_created f req db uid
            (by simpa using hv) (by simpa using hdf) hd (by simpa using hr)
          have h2 := congrArg Prod.snd hcreated
          have h0 := congrArg Prod.fst hcreated
          rw [h2, checkForPowerSpike_alerts]
          split
          · exact Or.inr ⟨_, uid, rfl, h0, rfl, rfl, rfl⟩
          · exact Or.inl rfl

/-- C4: if the history fetch or the alert insert throws while the reading
write succeeded, the detection cycle is abandoned with no side effects beyond
the inserted reading, and the request is still answered 201 with the created
reading. -/
theorem C4_storage_failure_still_created (f : Faults) (req : IngestRequest)
    (db : DB) (uid : Nat) (hv : req.validationErrors = false)
    (hdf : f.deviceFindFails = false)
    (hd : findDevice db req.deviceId = some uid)
    (hr : f.readingCreateFails = false)
    (hfail : f.historyFindFails = true ∨ f.alertCreateFails = true) :
    addEnergyReading f req db =
      (IngestResponse.created201 (mkEnergyReading req uid),
        { db with readings := mkEnergyReading req uid :: db.readings }) := by
  rw [addEnergyReading_created f req db uid hv hdf hd hr,
    checkForPowerSpike_abandoned f req.deviceId
      (mkEnergyReading req uid).power uid _ hfail]

/-- A run whose history fetch throws. -/
def faultHistory : Faults := { noFaults with historyFindFails := true }

/-- C4, witness: with a throwing history fetch, ingesting power 200 after
five stored readings still answers 201 and only inserts the reading. -/
theorem C4_storage_failure_still_created_witness :
    addEnergyReading faultHistory req200 db5x100 =
      (IngestResponse.created201 (mkEnergyReading req200 7),
        { db5x100 with readings := mkEnergyReading req200 7 :: db5x100.readings }) :=
  C4_storage_failure_still_created faultHistory req200 db5x100 7 rfl rfl rfl
    rfl (Or.inl rfl)

/-- C5: a failing notification delivery is swallowed: for every request,
store and fault pattern the run with `notifyFails` set answers exactly the
same HTTP response and leaves exactly the same alert store as the run without
it, and the alert store only ever grows by at most the one new alert (the
persisted alert is never rolled back). -/
theorem C5_notify_failure_harmless (f : Faults) (req : IngestRequest)
    (db : DB) :
    (addEnergyReading { f with notifyFails := true } req db).1 =
      (addEnergyReading f req db).1 ∧
    (addEnergyReading { f with notifyFails := true } req db).2.alerts =
      (addEnergyReading f req db).2.alerts ∧
    ((addEnergyReading { f with notifyFails := true } req db).2.alerts =
        db.alerts ∨
      ∃ a, (addEnergyReading { f with notifyFails := true } req db).2.alerts =
        a :: db.alerts) := by
  by_cases hv : req.validationErrors
  · simp [addEnergyReading, hv]
  · by_cases hdf : f.deviceFindFails
    · simp [addEnergyReading, hv, hdf]
    · cases hd : findDevice db req.deviceId with
      | none => simp [addEnergyReading, hv, hdf, hd]
      | some uid =>
        by_cases hr : f.readingCreateFails
        · simp [addEnergyReading, hv, hdf, hd, hr]
        · have hg := addEnergyReading_created { f with notifyFails := true }
            req db uid (by simpa using hv) (by simpa using hdf) hd
            (by simpa using hr)
          have hf := addEnergyReading_created f req db uid
            (by simpa using hv) (by simpa using hdf) hd (by simpa using hr)
          refine ⟨?_, ?_, ?_⟩
          · rw [congrArg Prod.fst hg, congrArg Prod.fst hf]
          · rw [congrArg Prod.snd hg, congrArg Prod.snd hf,
              checkForPowerSpike_alerts, checkForPowerSpike_alerts]
          · rw [congrArg Prod.snd hg, checkForPowerSpike_alerts]
            split
            · exact Or.inr ⟨_, rfl⟩
            · exact Or.inl rfl

/-- C6: an ingestion request for an unregistered device is answered 404 and
has no side effects at all: no reading, no alert, no notification. -/
theorem C6_unknown_device_404 (f : Faults) (req : IngestRequest) (db : DB)
    (hv : req.validationErrors = false) (hdf : f.deviceFindFails = false)
    (hd : findDevice db req.deviceId = none) :
    addEnergyReading f req db = (IngestResponse.notFound404, db) := by
  simp [addEnergyReading, hv, hdf, hd]

/-- Ingestion for a device id that is not registered. -/
def reqGhost : IngestRequest :=
  { deviceId := "ghost", current := 1, voltage := 1, temperature := 25,
    validationErrors := false }

/-- C6, witness: the store knows only `dev1`, so ingesting for `ghost`
answers 404 and leaves the store untouched. -/
theorem C6_unknown_device_404_witness :
    addEnergyReading noFaults reqGhost db5x100 =
      (IngestResponse.notFound404, db5x100) :=
  C6_unknown_device_404 noFaults reqGhost db5x100 rfl rfl rfl

/-- C7: when the mean power of the fetched window is 0, the threshold is 0
and any strictly positive current power is classified as a spike; and
concretely, five stored readings of power 0 followed by an ingested reading
of power 0.01 produce exactly one alert. -/
theorem C7_zero_average_boundary :
    (∀ (w : List Reading) (c : ℚ), averagePower w = 0 → 5 ≤ w.length →
      0 < c → spikeThreshold w = 0 ∧ spikeDecision w c = true) ∧
    (addEnergyReading noFaults reqSmall db5x0).2.alerts.length = 1 := by
  constructor
  · intro w c havg hlen hc
    have ht : spikeThreshold w = 0 := by
      rw [spikeThreshold, havg]; ring
    refine ⟨ht, ?_⟩
    simp [spikeDecision, hlen, ht, hc]
  · have h1 : (addEnergyReading noFaults reqSmall db5x0).2 =
        checkForPowerSpike noFaults reqSmall.deviceId
          (mkEnergyReading reqSmall 7).power 7
          { db5x0 with readings := mkEnergyReading reqSmall 7 :: db5x0.readings } :=
      congrArg Prod.snd
        (addEnergyReading_created noFaults reqSmall db5x0 7 rfl rfl rfl rfl)
    rw [h1, checkForPowerSpike_alerts,
      fetchWindow_insert db5x0 (mkEnergyReading reqSmall 7) reqSmall.deviceId rfl,
      if_pos ⟨rfl, rfl, (spikeDecision_iff _ _).2 ⟨by decide, by
        norm_num [spikeThreshold, averagePower, deviceReadings, db5x0, r0,
          reqSmall, mkEnergyReading, List.filter, List.take]⟩⟩]
    rfl

/-- C7, witness: a window of five readings of power 0 has threshold 0 and
classifies current power 0.01 as a spike. -/
theorem C7_zero_average_boundary_witness :
    spikeThreshold [r0, r0, r0, r0, r0] = 0 ∧
      spikeDecision [r0, r0, r0, r0, r0] (1 / 100) = true :=
  C7_zero_average_boundary.1 [r0, r0, r0, r0, r0] (1 / 100)
    (by norm_num [averagePower, r0]) (by decide) (by norm_num)

/-- Single-digit decimal representations have exactly one character. -/
theorem repr_digit_length (k : Nat) (h : k < 10) : (toString k).length = 1 := by
  interval_cases k <;> rfl

/-- C8: every alert a detection cycle creates has kind `power_spike`,
severity `high` (no input produces another severity on this path), and a
message embedding its current power and its average power each via
`toFixed2`; and `toFixed2` always renders exactly two digits after the
decimal point. -/
theorem C8_alert_format (f : Faults) (d : String) (c : ℚ) (u : Nat)
    (db : DB) :
    ((checkForPowerSpike f d c u db).alerts = db.alerts ∨
      ∃ a, (checkForPowerSpike f d c u db).alerts = a :: db.alerts ∧
        a.alertType = "power_spike" ∧ a.severity = "high" ∧
        a.message = "Power spike detected! Current power: " ++
          toFixed2 a.metadata.currentPower ++ "W is 50% above average: " ++
          toFixed2 a.metadata.averagePower ++ "W") ∧
    (∀ q : ℚ, ∃ intPart d1 d0 : String,
      toFixed2 q = intPart ++ "." ++ d1 ++ d0 ∧
        d1.length = 1 ∧ d0.length = 1) := by
  constructor
  · rw [checkForPowerSpike_alerts]
    split
    · exact Or.inr ⟨_, rfl, rfl, rfl, rfl⟩
    · exact Or.inl rfl
  · intro q
    exact ⟨(if Int.floor (q * 100 + 1 / 2) < 0 then "-" else "") ++
        toString ((Int.floor (q * 100 + 1 / 2)).natAbs / 100),
      toString ((Int.floor (q * 100 + 1 / 2)).natAbs / 10 % 10),
      toString ((Int.floor (q * 100 + 1 / 2)).natAbs % 10),
      rfl,
      repr_digit_length _ (Nat.mod_lt _ (by norm_num)),
      repr_digit_length _ (Nat.mod_lt _ (by norm_num))⟩

/-- C9: the spike/no-spike decision is a pure function of the powers of the
fetched window and of the current power: two stores whose fetched windows
for the device carry the same powers yield the same classification, and the
fault-free detection cycle creates an alert on the one exactly when it does
on the other. -/
theorem C9_decision_pure (d : String) (c : ℚ) (u : Nat) (db1 db2 : DB)
    (hw : (fetchWindow db1 d).map (fun r => r.power) =
      (fetchWindow db2 d).map (fun r => r.power)) :
    spikeDecision (fetchWindow db1 d) c = spikeDecision (fetchWindow db2 d) c ∧
    ((checkForPowerSpike noFaults d c u db1).alerts.length =
        db1.alerts.length + 1 ↔
      (checkForPowerSpike noFaults d c u db2).alerts.length =
        db2.alerts.length + 1) := by
  have hlen : (fetchWindow db1 d).length = (fetchWindow db2 d).length := by
    have h := congrArg List.length hw
    simpa using h
  have havg : averagePower (fetchWindow db1 d) =
      averagePower (fetchWindow db2 d) := by
    unfold averagePower
    rw [hw, hlen]
  have hdec : spikeDecision (fetchWindow db1 d) c =
      spikeDecision (fetchWindow db2 d) c := by
    unfold spikeDecision spikeThreshold
    rw [havg, hlen]
  refine ⟨hdec, ?_⟩
  rw [checkForPowerSpike_alerts, checkForPowerSpike_alerts]
  by_cases hb : spikeDecision (fetchWindow db1 d) c = true
  · rw [if_pos ⟨rfl, rfl, hb⟩, if_pos ⟨rfl, rfl, hdec ▸ hb⟩]
    simp
  · rw [if_neg, if_neg]
    · constructor <;> intro h' <;> omega
    · rintro ⟨-, -, hx⟩
      exact hb (hdec ▸ hx)
    · rintro ⟨-, -, hx⟩
      exact hb hx

/-- A reading with the same power 100 as `r100` but different current,
voltage, temperature and owner. -/
def rAlt : Reading :=
  { deviceId := "dev1", current := 20, voltage := 5, temperature := 99,
    power := 100, userId := 8 }

/-- A store differing from `db5x100` in everything but the window powers. -/
def dbAlt : DB :=
  { readings := [rAlt, rAlt, rAlt, rAlt, rAlt], alerts := [],
    devices := [("dev1", 8)], users := [], notifications := [] }

/-- C9, witness: `db5x100` and `dbAlt` have equal window powers for `dev1`,
hence the same decision and the same alert-creation outcome at power 200. -/
theorem C9_decision_pure_witness :
    spikeDecision (fetchWindow db5x100 "dev1") 200 =
      spikeDecision (fetchWindow dbAlt "dev1") 200 ∧
    ((checkForPowerSpike noFaults "dev1" 200 7 db5x100).alerts.length =
        db5x100.alerts.length + 1 ↔
      (checkForPowerSpike noFaults "dev1" 200 7 dbAlt).alerts.length =
        dbAlt.alerts.length + 1) :=
  C9_decision_pure "dev1" 200 7 db5x100 dbAlt rfl

/-- C10: the reading-list endpoint returns at most `limit` readings
(default 100), skipping `(page-1)*limit` (page defaults to 1) of the
device's newest-first readings, every returned reading belongs to the
queried device, the returned slice is a contiguous piece of the device's
newest-first listing, `count` is the number returned and `total` the number
stored for that device. -/
theorem C10_get_readings_pagination (d : String)
    (limitParam pageParam : Option Nat) (db : DB) :
    (getEnergyReadings d limitParam pageParam db).readings.length ≤
      limitParam.getD 100 ∧
    (getEnergyReadings d limitParam pageParam db).readings =
      ((deviceReadings db d).drop
        ((pageParam.getD 1 - 1) * limitParam.getD 100)).take
        (limitParam.getD 100) ∧
    (getEnergyReadings d limitParam pageParam db).count =
      (getEnergyReadings d limitParam pageParam db).readings.length ∧
    (getEnergyReadings d limitParam pageParam db).total =
      (deviceReadings db d).length ∧
    (getEnergyReadings d limitParam pageParam db).readings.all
      (fun r => r.deviceId == d) = true ∧
    List.IsInfix (getEnergyReadings d limitParam pageParam db).readings
      (deviceReadings db d) := by
  have hinf : List.IsInfix (getEnergyReadings d limitParam pageParam db).readings
      (deviceReadings db d) :=
    (List.take_prefix _ _).isInfix.trans (List.drop_suffix _ _).isInfix
  refine ⟨List.length_take_le _ _, rfl, rfl, rfl, ?_, hinf⟩
  rw [List.all_eq_true]
  intro r hr
  have hm : r ∈ deviceReadings db d := hinf.subset hr
  exact (List.mem_filter.1 hm).2

end EnergyDashboard
